import Mathlib

/-!
# Verification of `speedtest_ambient/main.py`

Shallow embedding of the address-discovery, route-sieving and reporting
pipeline of `src/speedtest_ambient/main.py`, together with theorems that
settle the specification claims about it.

External effects are made explicit parameters: the JSON interface listing
becomes a `List Interface`, the captured stdout of each `ip route get`
invocation becomes a `String` argument, and the number of route-lookup
invocations is returned alongside the produced addresses.

Python values that may be `None` (a `dict.get` result) are modelled as
`Option String`; Python's f-string rendering of such a value is `render`.
-/

namespace SpeedtestAmbient

/-! ## The regex matcher

`_sieve_addresses_family` runs
`re.search(rf"\b{address}\b", p.stdout, re.VERBOSE)`.
The address is interpolated into the pattern **unescaped**, so the pattern is
the address's characters flanked by word boundaries, with every `.` in the
address acting as the regex wildcard "any single character".  This embedding
models exactly that fragment of Python `re`, which is faithful for pattern
strings whose characters are ASCII alphanumerics, `_`, `:` and `.` — the
character set of IP addresses and of the Python rendering `"None"` — since
none of those except `.` is a regex metacharacter, and none is whitespace or
`#` (the characters `re.VERBOSE` would strip).  `\w`/`\b` are modelled at
ASCII (all inputs considered here are ASCII). -/

/-- ASCII word character, as used by the regex `\b` assertion. -/
def isWordChar (c : Char) : Bool :=
  c.isAlphanum || c == '_'

/-- Is the character at position `j` of `t` a word character
(out-of-range positions count as non-word)? -/
def atWord (t : List Char) (j : Nat) : Bool :=
  match t.get? j with
  | some c => isWordChar c
  | none => false

/-- The regex `\b` assertion at position `j` of `t`: exactly one of the two
neighbouring positions holds a word character. -/
def wordBoundary (t : List Char) (j : Nat) : Bool :=
  (match j with
   | 0 => false
   | k + 1 => atWord t k) != atWord t j

/-- One pattern character against one text character: `.` matches any
character, every other character matches only itself. -/
def patCharMatches (p c : Char) : Bool :=
  p == '.' || p == c

/-- Does the pattern `\b pat \b` (with `.` as wildcard) match `t`
starting at position `i`? -/
def reMatchAt (pat t : List Char) (i : Nat) : Bool :=
  decide (i + pat.length ≤ t.length)
    && ((pat.zip ((t.drop i).take pat.length)).all fun pc =>
          patCharMatches pc.1 pc.2)
    && wordBoundary t i
    && wordBoundary t (i + pat.length)

/-- `re.search(rf"\b{pat}\b", t, re.VERBOSE)` succeeds: the pattern matches
at some position of `t`. -/
def reSearchWord (pat t : List Char) : Bool :=
  (List.range (t.length + 1)).any (reMatchAt pat t)

/-! ## Claim-side matching predicates

These follow the specification's words ("word-boundary-delimited literal
substring", "the address compared character for character", "contains") and
are compared with the matcher embedded from the source. -/

/-- Literal (character-for-character) match of `pat` at position `i` of `t`,
flanked by word boundaries. No wildcard behaviour. -/
def litMatchAt (pat t : List Char) (i : Nat) : Bool :=
  decide (i + pat.length ≤ t.length)
    && ((pat.zip ((t.drop i).take pat.length)).all fun pc => pc.1 == pc.2)
    && wordBoundary t i
    && wordBoundary t (i + pat.length)

/-- `pat` occurs in `t` as a word-boundary-delimited literal substring. -/
def litTokenSearch (pat t : List Char) : Bool :=
  (List.range (t.length + 1)).any (litMatchAt pat t)

/-- `pat` occurs in `t` as a plain literal substring (no boundary
requirement). -/
def substrAt (pat t : List Char) (i : Nat) : Bool :=
  decide (i + pat.length ≤ t.length)
    && ((pat.zip ((t.drop i).take pat.length)).all fun pc => pc.1 == pc.2)

/-- Plain substring containment of `pat` in `t`. -/
def containsSub (pat t : List Char) : Bool :=
  (List.range (t.length + 1)).any (substrAt pat t)

/-- Declarative characterization of a successful `reSearchWord`: some
position `i` fits the pattern in the text, each pattern character either is
the wildcard `.` or equals the corresponding text character, and both ends
sit on word boundaries. -/
def DotTokenOccurs (pat t : List Char) : Prop :=
  ∃ i, i + pat.length ≤ t.length ∧
    List.Forall₂ (fun p c => p = '.' ∨ p = c) pat ((t.drop i).take pat.length) ∧
    wordBoundary t i = true ∧
    wordBoundary t (i + pat.length) = true

/-! ## The source functions -/

/-- Probe destination for the IPv4 route lookup (source line 16). -/
def _GLOBAL_V4_ADDRESS : String := "192.0.2.0"

/-- Probe destination for the IPv6 route lookup (source line 17). -/
def _GLOBAL_V6_ADDRESS : String := "2001:db8::"

/-- Python f-string rendering of an `Optional[str]` value: a string renders
as itself, `None` renders as `"None"`. -/
def render : Option String → String
  | some s => s
  | none => "None"

/-- Embedding of `_sieve_addresses_family` (source lines 57–73).

The captured stdout of `ip route get <probe>` is the `routeOutput`
argument.  Returns the yielded addresses together with the number of route
lookup invocations performed (`0` when the candidate list is empty — the
`if not addresses: return` guard — and `1` otherwise). -/
def _sieve_addresses_family (addresses : List (Option String))
    (routeOutput : String) : List (Option String) × Nat :=
  if addresses.isEmpty then ([], 0)
  else
    (addresses.filter fun a => reSearchWord (render a).data routeOutput.data, 1)

/-- Embedding of `_sieve_addresses` (source lines 50–54): the v4 family is
sieved and yielded first, then the v6 family.  `routeV4`/`routeV6` are the
stdouts of the per-family route lookups; the second component accumulates
the number of route-lookup invocations. -/
def _sieve_addresses (v4addresses v6addresses : List (Option String))
    (routeV4 routeV6 : String) : List (Option String) × Nat :=
  let r4 := _sieve_addresses_family v4addresses routeV4
  let r6 := _sieve_addresses_family v6addresses routeV6
  (r4.1 ++ r6.1, r4.2 + r6.2)

/-- One element of an interface's `addr_info` array.  `family` models
`addr_info.get("family")` and `localAddr` models `addr_info.get("local")`
(`none` when the key is absent). -/
structure AddrInfo where
  family : Option String
  localAddr : Option String
  deriving DecidableEq, Repr

/-- Embedding of `_separate_family` (source lines 76–84).

Mirrors the Python `match` statement: `case "inet", addr` tests only the
`family` component — `addr` is an irrefutable capture pattern, so it also
matches `None` (absent `local` key) and the empty string, and that captured
value is appended as-is. -/
def _separate_family : List AddrInfo → List (Option String) × List (Option String)
  | [] => ([], [])
  | a :: rest =>
    let r := _separate_family rest
    if a.family = some "inet" then (a.localAddr :: r.1, r.2)
    else if a.family = some "inet6" then (r.1, a.localAddr :: r.2)
    else r

/-- One interface object of the `ip --json address show scope global`
output; `addr_info` models the `"addr_info"` key (`none` when absent). -/
structure Interface where
  addr_info : Option (List AddrInfo)
  deriving DecidableEq, Repr

/-- Embedding of `_get_ip_addresses` (source lines 42–47): flatten all
interfaces' `addr_info` lists (`methodcaller("get", "addr_info", [])`
defaults an absent key to `[]`), split by family, and sieve.  The parsed
JSON interface listing and the two route-lookup stdouts are explicit
arguments. -/
def _get_ip_addresses (ifs : List Interface) (routeV4 routeV6 : String) :
    List (Option String) × Nat :=
  let flat := (ifs.map fun i => i.addr_info.getD []).flatten
  let fams := _separate_family flat
  _sieve_addresses fams.1 fams.2 routeV4 routeV6

/-- Spec-side extraction (§4.2, §8.1 of the spec): the local-address strings
of the entries with family `"inet"` and a present, non-empty `local` field,
in original order. -/
def specV4Addresses (l : List AddrInfo) : List String :=
  l.filterMap fun a =>
    match a.localAddr with
    | some s => if a.family = some "inet" ∧ s ≠ "" then some s else none
    | none => none

/-- Spec-side extraction, IPv6 analogue of `specV4Addresses`. -/
def specV6Addresses (l : List AddrInfo) : List String :=
  l.filterMap fun a =>
    match a.localAddr with
    | some s => if a.family = some "inet6" ∧ s ≠ "" then some s else none
    | none => none

/-! ## Result formatting and reporting

`_speed_test` parses the external tool's JSON into `_SpeedTestResult`;
`to_ambient` renders it as the upload payload (a `dict`, modelled as the
association list in insertion order); `_ambient` pushes one payload per
result to the configured channels, in order.  Python floats are modelled as
rationals and the timestamp as a whole number of seconds since the Unix
epoch (an aware instant; `strftime` does not print sub-second digits). -/

/-- `_TIMEZONE_OFFSET = timedelta(hours=9)` (source line 19), in seconds. -/
def _TIMEZONE_OFFSET : Int := 9 * 3600

/-- Two-digit zero-padded decimal, as `strftime` `%m`/`%d`/`%H`/`%M`/`%S`. -/
def pad2 (n : Nat) : String :=
  if n < 10 then "0" ++ toString n else toString n

/-- Four-digit zero-padded decimal, as `strftime` `%Y` for years 1–9999. -/
def pad4 (n : Nat) : String :=
  if n < 10 then "000" ++ toString n
  else if n < 100 then "00" ++ toString n
  else if n < 1000 then "0" ++ toString n
  else toString n

/-- Proleptic-Gregorian civil date (year, month, day) of a day count
relative to 1970-01-01, by the standard era decomposition. -/
def civilFromDays (z : Int) : Int × Nat × Nat :=
  let zs := z + 719468
  let era := zs.fdiv 146097
  let doe := (zs - era * 146097).toNat
  let yoe := (doe - doe / 1460 + doe / 36524 - doe / 146096) / 365
  let doy := doe - (365 * yoe + yoe / 4 - yoe / 100)
  let mp := (5 * doy + 2) / 153
  let d := doy - (153 * mp + 2) / 5 + 1
  let m := if mp < 10 then mp + 3 else mp - 9
  (era * 400 + yoe + (if m ≤ 2 then 1 else 0), m, d)

/-- `strftime("%Y-%m-%d %H:%M:%S")` on the civil time of wall-clock second
`w` (seconds since the epoch already shifted into the target timezone). -/
def formatYmdHms (w : Int) : String :=
  let days := w.fdiv 86400
  let sod := (w - days * 86400).toNat
  let c := civilFromDays days
  pad4 c.1.toNat ++ "-" ++ pad2 c.2.1 ++ "-" ++ pad2 c.2.2 ++ " " ++
    pad2 (sod / 3600) ++ ":" ++ pad2 (sod % 3600 / 60) ++ ":" ++ pad2 (sod % 60)

/-- Embedding of the `_SpeedTestResult` named tuple (source lines 87–93).
`timestamp` is the parsed ISO-8601 instant, in seconds since the epoch. -/
structure _SpeedTestResult where
  timestamp : Int
  latency_ms : Rat
  jitter_ms : Rat
  download_bytesps : Int
  upload_bytesps : Int
  packet_loss : Option Rat
  deriving DecidableEq, Repr

/-- A value of the upload payload: a number or the formatted timestamp. -/
inductive AVal where
  | num (q : Rat)
  | str (s : String)
  deriving DecidableEq, Repr

/-- Embedding of `_SpeedTestResult._to_ambient_data` (source lines 103–109):
latency, jitter, download and upload throughput converted from bytes/sec to
Mbps, and the packet loss only when present. -/
def _SpeedTestResult._to_ambient_data (r : _SpeedTestResult) : List Rat :=
  r.latency_ms :: r.jitter_ms ::
    (r.download_bytesps * 8 : Rat) / 1000 / 1000 ::
    (r.upload_bytesps * 8 : Rat) / 1000 / 1000 ::
    (match r.packet_loss with
     | some p => [p]
     | none => [])

/-- Embedding of `_SpeedTestResult.to_ambient` (source lines 95–101): the
data values keyed `"d1"`, `"d2"`, … by `enumerate(..., 1)`, then the
`created` key holding the timestamp shifted to `_TIMEZONE` (UTC+9) and
formatted `%Y-%m-%d %H:%M:%S`.  The Python `dict` is modelled as the
association list in insertion order (all keys are distinct). -/
def _SpeedTestResult.to_ambient (r : _SpeedTestResult) : List (String × AVal) :=
  let created := formatYmdHms (r.timestamp + _TIMEZONE_OFFSET)
  (((List.range' 1 r._to_ambient_data.length).zip r._to_ambient_data).map
    fun p => ("d" ++ toString p.1, AVal.num p.2)) ++
    [("created", AVal.str created)]

/-- One entry of `config["ambient"]["channels"]`. -/
structure Channel where
  id : String
  write_key : String
  deriving DecidableEq, Repr

/-- Embedding of `_ambient` (source lines 125–131): walk the results,
drawing the next configured channel for each (`next(config_it)`), and send
the payload to it.  The first component lists the uploads performed, in
order, as (channel, payload) pairs; the second component is `false` exactly
when the channel iterator was exhausted while a result remained —
`next` raising `StopIteration`, which aborts the run.  HTTP delivery itself
(`raise_for_status`) is an external effect outside this model. -/
def _ambient : List _SpeedTestResult → List Channel →
    List (Channel × List (String × AVal)) × Bool
  | [], _ => ([], true)
  | _ :: _, [] => ([], false)
  | r :: rs, c :: cs =>
    let rest := _ambient rs cs
    ((c, r.to_ambient) :: rest.1, rest.2)

/-! ## Helper lemmas -/

theorem seg_length (t : List Char) (i n : Nat) (h : i + n ≤ t.length) :
    ((t.drop i).take n).length = n := by
  simp [List.length_take, List.length_drop]
  omega

theorem zip_all_iff_forall₂ {α β : Type} (f : α → β → Bool) (l₁ : List α)
    (l₂ : List β) (h : l₁.length = l₂.length) :
    (((l₁.zip l₂).all fun pc => f pc.1 pc.2) = true ↔
      List.Forall₂ (fun a b => f a b = true) l₁ l₂) := by
  induction l₁ generalizing l₂ with
  | nil =>
    cases l₂ with
    | nil => simp
    | cons b l₂ => simp at h
  | cons a l₁ ih =>
    cases l₂ with
    | nil => simp at h
    | cons b l₂ =>
      simp only [List.zip_cons_cons, List.all_cons, Bool.and_eq_true,
        List.forall₂_cons]
      exact and_congr Iff.rfl (ih l₂ (by simpa using h))

/-- The embedded `re.search` succeeds exactly when the declarative
dot-wildcard word-boundary occurrence predicate holds. -/
theorem reSearchWord_iff (pat t : List Char) :
    reSearchWord pat t = true ↔ DotTokenOccurs pat t := by
  unfold reSearchWord DotTokenOccurs
  rw [List.any_eq_true]
  constructor
  · rintro ⟨i, _, hm⟩
    unfold reMatchAt at hm
    simp only [Bool.and_eq_true, decide_eq_true_eq] at hm
    obtain ⟨⟨⟨hle, hall⟩, hb1⟩, hb2⟩ := hm
    refine ⟨i, hle, ?_, hb1, hb2⟩
    have hlen : pat.length = ((t.drop i).take pat.length).length :=
      (seg_length t i pat.length hle).symm
    have hf := (zip_all_iff_forall₂ patCharMatches pat _ hlen).mp hall
    exact hf.imp fun a b hab => by
      simpa [patCharMatches, Bool.or_eq_true] using hab
  · rintro ⟨i, hle, hf, hb1, hb2⟩
    refine ⟨i, List.mem_range.mpr (by omega), ?_⟩
    unfold reMatchAt
    simp only [Bool.and_eq_true, decide_eq_true_eq]
    have hlen : pat.length = ((t.drop i).take pat.length).length :=
      (seg_length t i pat.length hle).symm
    refine ⟨⟨⟨hle, ?_⟩, hb1⟩, hb2⟩
    exact (zip_all_iff_forall₂ patCharMatches pat _ hlen).mpr
      (hf.imp fun a b hab => by
        simpa [patCharMatches, Bool.or_eq_true] using hab)

/-- A literal word-boundary occurrence is in particular found by the
dot-wildcard matcher the code runs. -/
theorem litTokenSearch_imp (pat t : List Char)
    (h : litTokenSearch pat t = true) : reSearchWord pat t = true := by
  unfold litTokenSearch at h
  unfold reSearchWord
  rw [List.any_eq_true] at h ⊢
  obtain ⟨i, hi, hm⟩ := h
  refine ⟨i, hi, ?_⟩
  unfold litMatchAt at hm
  unfold reMatchAt
  simp only [Bool.and_eq_true, decide_eq_true_eq, List.all_eq_true] at hm ⊢
  obtain ⟨⟨⟨hle, hall⟩, hb1⟩, hb2⟩ := hm
  refine ⟨⟨⟨hle, fun pc hpc => ?_⟩, hb1⟩, hb2⟩
  have := hall pc hpc
  simp only [beq_iff_eq] at this
  simp [patCharMatches, Bool.or_eq_true, this]

/-- For a pattern containing no `.`, a successful dot-wildcard match means
the pattern occurs in the text as a plain literal substring. -/
theorem reSearch_dotless_imp (pat t : List Char)
    (hd : (pat.all fun c => !(c == '.')) = true)
    (h : reSearchWord pat t = true) : containsSub pat t = true := by
  unfold reSearchWord at h
  unfold containsSub
  rw [List.any_eq_true] at h ⊢
  obtain ⟨i, hi, hm⟩ := h
  refine ⟨i, hi, ?_⟩
  unfold reMatchAt at hm
  unfold substrAt
  simp only [Bool.and_eq_true, decide_eq_true_eq, List.all_eq_true] at hm hd ⊢
  obtain ⟨⟨⟨hle, hall⟩, _⟩, _⟩ := hm
  refine ⟨hle, fun pc hpc => ?_⟩
  have h1 := hall pc hpc
  have h2 := hd pc.1 (List.of_mem_zip hpc).1
  simp only [patCharMatches, Bool.or_eq_true, beq_iff_eq] at h1
  simp only [Bool.not_eq_true', beq_eq_false_iff_ne, ne_eq] at h2
  rcases h1 with h1 | h1
  · exact absurd h1 h2
  · simp [h1]

/-- For a pattern containing no `.`, absence as a plain substring implies
the code's matcher fails. -/
theorem reSearch_dotless_not (pat t : List Char)
    (hd : (pat.all fun c => !(c == '.')) = true)
    (h : containsSub pat t = false) : reSearchWord pat t = false := by
  cases hr : reSearchWord pat t with
  | false => rfl
  | true => rw [reSearch_dotless_imp pat t hd hr] at h; cases h

/-- `_separate_family` in closed form: the v4 (resp. v6) component carries
the `local`-field value of every entry whose family is `"inet"`
(resp. `"inet6"`), unconditionally, in original order. -/
theorem separate_family_eq (l : List AddrInfo) :
    _separate_family l =
      (l.filterMap fun a => if a.family = some "inet" then some a.localAddr else none,
       l.filterMap fun a => if a.family = some "inet6" then some a.localAddr else none) := by
  induction l with
  | nil => rfl
  | cons a rest ih =>
    by_cases h4 : a.family = some "inet"
    · simp [_separate_family, h4, ih]
    · by_cases h6 : a.family = some "inet6"
      · simp [_separate_family, h4, h6, ih]
      · simp [_separate_family, h4, h6, ih]

/-- The uploads `_ambient` performs: the configured channels paired
positionally with the results' payloads (`zip` truncates at the shorter
list, matching the loop that stops at whichever iterator ends first). -/
theorem ambient_uploads_eq (results : List _SpeedTestResult)
    (channels : List Channel) :
    (_ambient results channels).1 =
      channels.zip (results.map _SpeedTestResult.to_ambient) := by
  induction results generalizing channels with
  | nil => simp [_ambient]
  | cons r rs ih =>
    cases channels with
    | nil => simp [_ambient]
    | cons c cs => simp [_ambient, ih]

/-- `_ambient` completes without exhausting the channel iterator exactly
when there are at least as many channels as results. -/
theorem ambient_ok_iff (results : List _SpeedTestResult)
    (channels : List Channel) :
    (_ambient results channels).2 = decide (results.length ≤ channels.length) := by
  induction results generalizing channels with
  | nil => simp [_ambient]
  | cons r rs ih =>
    cases channels with
    | nil => simp [_ambient]
    | cons c cs => simp [_ambient, ih]

/-- The per-family sieve only ever filters its candidate list. -/
theorem sieve_family_output_sublist (addresses : List (Option String))
    (routeOutput : String) :
    List.Sublist (_sieve_addresses_family addresses routeOutput).1 addresses := by
  unfold _sieve_addresses_family
  split_ifs with h
  · exact List.nil_sublist _
  · exact List.filter_sublist _

/-! ## Claim theorems -/

/-- C1 (counterexample): the candidate `"1.2"` does not occur in the text
`"1x2"` as a word-boundary-delimited literal substring, yet the sieve
yields it — the interpolated `.` is a regex wildcard and matches the `x`,
so matching is not character-for-character as claimed. -/
theorem sieve_family_not_literal_cex :
    (_sieve_addresses_family [some "1.2"] "1x2").1 = [some "1.2"] ∧
    litTokenSearch "1.2".data "1x2".data = false := by decide

/-- C1 (as amended): the per-family sieve yields exactly those candidates,
in original order, whose rendering matches the route-lookup text as a
word-boundary-delimited pattern in which each `.` of the address matches
any single character and every other character matches literally; the
matcher is characterized declaratively by `DotTokenOccurs`. -/
theorem sieve_family_yields_dot_matches :
    ∀ (addresses : List (Option String)) (routeOutput : String),
      (_sieve_addresses_family addresses routeOutput).1 =
        addresses.filter (fun a => reSearchWord (render a).data routeOutput.data) ∧
      ∀ pat t : List Char, reSearchWord pat t = true ↔ DotTokenOccurs pat t := by
  intro addresses routeOutput
  constructor
  · unfold _sieve_addresses_family
    split_ifs with h
    · rw [List.isEmpty_iff] at h
      rw [h]
      rfl
    · rfl
  · exact reSearchWord_iff

/-- C2 (counterexample): an entry with family `"inet"` and no `local`
field is not dropped — the irrefutable capture pattern of the Python
`match` statement appends the `None` value to the v4 output. -/
theorem separate_family_keeps_missing_local_cex :
    _separate_family [AddrInfo.mk (some "inet") none] = ([none], []) ∧
    (_separate_family [AddrInfo.mk (some "inet") none]).1 ≠ [] := by decide

/-- C2 (as amended): the family splitter contributes no output for entries
whose family tag is other than `"inet"`/`"inet6"`, and for every entry with
a recognized family it contributes that entry's local-address value
unconditionally — a missing (`None`) or empty local field is passed
through, not dropped. -/
theorem separate_family_no_local_filtering (l : List AddrInfo) :
    (_separate_family l).1 =
      (l.filterMap fun a => if a.family = some "inet" then some a.localAddr else none) ∧
    (_separate_family l).2 =
      (l.filterMap fun a => if a.family = some "inet6" then some a.localAddr else none) := by
  rw [separate_family_eq]
  exact ⟨rfl, rfl⟩

/-- C3: when both families have surviving addresses, the merged sieve
output is the surviving v4 addresses followed by the surviving v6
addresses, each family's survivors in original relative order (a sublist of
its candidate list). -/
theorem sieve_merged_v4_before_v6
    (v4addresses v6addresses : List (Option String)) (routeV4 routeV6 : String)
    (_hv4 : (_sieve_addresses_family v4addresses routeV4).1 ≠ [])
    (_hv6 : (_sieve_addresses_family v6addresses routeV6).1 ≠ []) :
    (_sieve_addresses v4addresses v6addresses routeV4 routeV6).1 =
      (_sieve_addresses_family v4addresses routeV4).1 ++
        (_sieve_addresses_family v6addresses routeV6).1 ∧
    List.Sublist (_sieve_addresses_family v4addresses routeV4).1 v4addresses ∧
    List.Sublist (_sieve_addresses_family v6addresses routeV6).1 v6addresses :=
  ⟨rfl, sieve_family_output_sublist v4addresses routeV4,
    sieve_family_output_sublist v6addresses routeV6⟩

/-- Witness for C3 at concrete candidate lists and route texts in which
both families have a survivor. -/
theorem sieve_merged_v4_before_v6_witness :
    (_sieve_addresses_family [some "1"] "1").1 ≠ [] ∧
    (_sieve_addresses_family [some "2"] "2").1 ≠ [] ∧
    ((_sieve_addresses [some "1"] [some "2"] "1" "2").1 =
      (_sieve_addresses_family [some "1"] "1").1 ++
        (_sieve_addresses_family [some "2"] "2").1 ∧
     List.Sublist (_sieve_addresses_family [some "1"] "1").1 [some "1"] ∧
     List.Sublist (_sieve_addresses_family [some "2"] "2").1 [some "2"]) :=
  ⟨by decide, by decide,
    sieve_merged_v4_before_v6 [some "1"] [some "2"] "1" "2" (by decide) (by decide)⟩

/-- C4: an empty family candidate list causes no route lookup and yields
nothing; a non-empty one causes exactly one lookup; with both lists empty
the sieve performs zero lookups and yields the empty sequence. -/
theorem sieve_route_lookup_counts :
    ∀ (t routeV4 routeV6 : String) (a : Option String) (l : List (Option String)),
      (_sieve_addresses_family [] t).2 = 0 ∧
      (_sieve_addresses_family [] t).1 = [] ∧
      (_sieve_addresses_family (a :: l) t).2 = 1 ∧
      _sieve_addresses [] [] routeV4 routeV6 = ([], 0) := by
  intro t routeV4 routeV6 a l
  refine ⟨rfl, rfl, ?_, rfl⟩
  simp [_sieve_addresses_family]

/-- C5 (counterexample): an `"inet"` entry whose `local` field is the
empty string is passed through, so the v4 output is not "exactly the
non-empty local strings" — here the spec-side extraction is empty while
the splitter outputs the empty string. -/
theorem separate_family_keeps_empty_local_cex :
    (_separate_family [AddrInfo.mk (some "inet") (some "")]).1 = [some ""] ∧
    specV4Addresses [AddrInfo.mk (some "inet") (some "")] = [] := by decide

/-- C5 (as amended): when every recognized-family entry carries a present,
non-empty local field, the splitter's outputs are exactly the local
strings of the `"inet"` (resp. `"inet6"`) entries, in original relative
order and with duplicates preserved (no deduplication). -/
theorem separate_family_exact_when_locals_nonempty (l : List AddrInfo)
    (h4 : ∀ a ∈ l, a.family = some "inet" → a.localAddr ≠ none ∧ a.localAddr ≠ some "")
    (h6 : ∀ a ∈ l, a.family = some "inet6" → a.localAddr ≠ none ∧ a.localAddr ≠ some "") :
    (_separate_family l).1 = (specV4Addresses l).map some ∧
    (_separate_family l).2 = (specV6Addresses l).map some := by
  induction l with
  | nil => exact ⟨rfl, rfl⟩
  | cons a rest ih =>
    have hr := ih (fun b hb => h4 b (List.mem_cons_of_mem a hb))
      (fun b hb => h6 b (List.mem_cons_of_mem a hb))
    by_cases hf4 : a.family = some "inet"
    · obtain ⟨hnn, hne⟩ := h4 a (List.mem_cons_self a rest) hf4
      cases hloc : a.localAddr with
      | none => exact absurd hloc hnn
      | some s =>
        have hs : s ≠ "" := by
          intro hcon
          rw [hcon] at hloc
          exact hne hloc
        simp [_separate_family, specV4Addresses, specV6Addresses, hf4, hloc,
          hs, hr.1, hr.2]
    · by_cases hf6 : a.family = some "inet6"
      · obtain ⟨hnn, hne⟩ := h6 a (List.mem_cons_self a rest) hf6
        cases hloc : a.localAddr with
        | none => exact absurd hloc hnn
        | some s =>
          have hs : s ≠ "" := by
            intro hcon
            rw [hcon] at hloc
            exact hne hloc
          simp [_separate_family, specV4Addresses, specV6Addresses, hf4, hf6,
            hloc, hs, hr.1, hr.2]
      · cases hloc : a.localAddr with
        | none =>
          simp [_separate_family, specV4Addresses, specV6Addresses, hf4, hf6,
            hloc, hr.1, hr.2]
        | some s =>
          simp [_separate_family, specV4Addresses, specV6Addresses, hf4, hf6,
            hloc, hr.1, hr.2]

/-- Witness for C5 at a concrete listing with a duplicated v4 address, an
unrecognized family and a v6 entry. -/
theorem separate_family_exact_when_locals_nonempty_witness :
    (∀ a ∈ [AddrInfo.mk (some "inet") (some "1.2.3.4"),
            AddrInfo.mk (some "inet6") (some "::1"),
            AddrInfo.mk (some "dummy") (some "x"),
            AddrInfo.mk (some "inet") (some "1.2.3.4")],
        a.family = some "inet" → a.localAddr ≠ none ∧ a.localAddr ≠ some "") ∧
    (∀ a ∈ [AddrInfo.mk (some "inet") (some "1.2.3.4"),
            AddrInfo.mk (some "inet6") (some "::1"),
            AddrInfo.mk (some "dummy") (some "x"),
            AddrInfo.mk (some "inet") (some "1.2.3.4")],
        a.family = some "inet6" → a.localAddr ≠ none ∧ a.localAddr ≠ some "") ∧
    ((_separate_family [AddrInfo.mk (some "inet") (some "1.2.3.4"),
                        AddrInfo.mk (some "inet6") (some "::1"),
                        AddrInfo.mk (some "dummy") (some "x"),
                        AddrInfo.mk (some "inet") (some "1.2.3.4")]).1 =
        (specV4Addresses [AddrInfo.mk (some "inet") (some "1.2.3.4"),
                          AddrInfo.mk (some "inet6") (some "::1"),
                          AddrInfo.mk (some "dummy") (some "x"),
                          AddrInfo.mk (some "inet") (some "1.2.3.4")]).map some ∧
     (_separate_family [AddrInfo.mk (some "inet") (some "1.2.3.4"),
                        AddrInfo.mk (some "inet6") (some "::1"),
                        AddrInfo.mk (some "dummy") (some "x"),
                        AddrInfo.mk (some "inet") (some "1.2.3.4")]).2 =
        (specV6Addresses [AddrInfo.mk (some "inet") (some "1.2.3.4"),
                          AddrInfo.mk (some "inet6") (some "::1"),
                          AddrInfo.mk (some "dummy") (some "x"),
                          AddrInfo.mk (some "inet") (some "1.2.3.4")]).map some) :=
  ⟨by decide, by decide,
    separate_family_exact_when_locals_nonempty _ (by decide) (by decide)⟩

/-- C6 (counterexample): in the route text `"10.0.0.5 10a0b0c50"` the
candidate `"10.0.0.50"` does not occur as a literal token (nor even as a
plain substring) while `"10.0.0.5"` does occur as a token, yet the sieve
yields `"10.0.0.50"`: its dots match `a`, `b`, `c` as wildcards. -/
theorem sieve_prefix_token_cex :
    litTokenSearch "10.0.0.5".data "10.0.0.5 10a0b0c50".data = true ∧
    litTokenSearch "10.0.0.50".data "10.0.0.5 10a0b0c50".data = false ∧
    containsSub "10.0.0.50".data "10.0.0.5 10a0b0c50".data = false ∧
    (_sieve_addresses_family [some "10.0.0.50"] "10.0.0.5 10a0b0c50").1 =
      [some "10.0.0.50"] := by decide

/-- C6 (as amended): in a route-lookup output in which `"10.0.0.5"`
appears as a token and no other word matches the candidate's dot-wildcard
pattern, the sieve does not false-positive: candidate `"10.0.0.50"` is
dropped while `"10.0.0.5"` is yielded. -/
theorem sieve_prefix_token_no_false_positive :
    (_sieve_addresses_family [some "10.0.0.50", some "10.0.0.5"]
        "192.0.2.0 via 10.0.0.5 dev eth0").1 = [some "10.0.0.5"] ∧
    litTokenSearch "10.0.0.5".data "192.0.2.0 via 10.0.0.5 dev eth0".data =
      true := by decide

/-- C10: the per-family sieve output is a subsequence of the candidate
list — order-preserving, every yielded element is a candidate, and no
candidate appears more often in the output than in the input. -/
theorem sieve_family_output_subsequence :
    ∀ (addresses : List (Option String)) (routeOutput : String),
      List.Sublist (_sieve_addresses_family addresses routeOutput).1 addresses ∧
      (∀ a ∈ (_sieve_addresses_family addresses routeOutput).1, a ∈ addresses) ∧
      (∀ a, (_sieve_addresses_family addresses routeOutput).1.count a ≤
        addresses.count a) := by
  intro addresses routeOutput
  have hs := sieve_family_output_sublist addresses routeOutput
  exact ⟨hs, fun a ha => hs.subset ha, fun a => hs.count_le a⟩

/-- C7: when there are more results (surviving addresses) than configured
channels, the reporting loop uploads the first `|channels|` results to
their positionally matching channels and then fails fatally on the
exhausted channel iterator — no skipping, wrapping or channel reuse. -/
theorem ambient_channel_exhaustion_fatal
    (results : List _SpeedTestResult) (channels : List Channel)
    (h : channels.length < results.length) :
    (_ambient results channels).2 = false ∧
    (_ambient results channels).1 =
      channels.zip (results.map _SpeedTestResult.to_ambient) := by
  refine ⟨?_, ambient_uploads_eq results channels⟩
  rw [ambient_ok_iff]
  simp only [decide_eq_false_iff_not]
  omega

/-- Witness for C7: two results against a single configured channel. -/
theorem ambient_channel_exhaustion_fatal_witness :
    ([Channel.mk "ch1" "key1"].length <
      [_SpeedTestResult.mk 0 1 2 3 4 none,
       _SpeedTestResult.mk 0 5 6 7 8 none].length) ∧
    ((_ambient [_SpeedTestResult.mk 0 1 2 3 4 none,
                _SpeedTestResult.mk 0 5 6 7 8 none]
        [Channel.mk "ch1" "key1"]).2 = false ∧
     (_ambient [_SpeedTestResult.mk 0 1 2 3 4 none,
                _SpeedTestResult.mk 0 5 6 7 8 none]
        [Channel.mk "ch1" "key1"]).1 =
       [Channel.mk "ch1" "key1"].zip
         ([_SpeedTestResult.mk 0 1 2 3 4 none,
           _SpeedTestResult.mk 0 5 6 7 8 none].map _SpeedTestResult.to_ambient)) :=
  ⟨by decide, ambient_channel_exhaustion_fatal _ _ (by decide)⟩

/-- C8: the upload payload maps `d1` to latency, `d2` to jitter, `d3`/`d4`
to download/upload throughput converted bytes/sec → Mbps (× 8 / 1000 /
1000), has `d5` exactly when packet loss is present (holding it), and a
`created` key with the timestamp rendered at the fixed UTC+9 offset in
`YYYY-MM-DD HH:MM:SS` form; and the uploads pair results positionally with
the configured channels, one per surviving address. -/
theorem to_ambient_payload_fields :
    (∀ r : _SpeedTestResult,
      r.to_ambient.lookup "d1" = some (AVal.num r.latency_ms) ∧
      r.to_ambient.lookup "d2" = some (AVal.num r.jitter_ms) ∧
      r.to_ambient.lookup "d3" =
        some (AVal.num ((r.download_bytesps * 8 : Rat) / 1000 / 1000)) ∧
      r.to_ambient.lookup "d4" =
        some (AVal.num ((r.upload_bytesps * 8 : Rat) / 1000 / 1000)) ∧
      r.to_ambient.lookup "d5" = r.packet_loss.map AVal.num ∧
      r.to_ambient.lookup "created" =
        some (AVal.str (formatYmdHms (r.timestamp + 9 * 3600)))) ∧
    ∀ (results : List _SpeedTestResult) (channels : List Channel),
      (_ambient results channels).1 =
        channels.zip (results.map _SpeedTestResult.to_ambient) := by
  constructor
  · intro r
    have e1 : "d" ++ toString (1 : Nat) = "d1" := rfl
    have e2 : "d" ++ toString (2 : Nat) = "d2" := rfl
    have e3 : "d" ++ toString (3 : Nat) = "d3" := rfl
    have e4 : "d" ++ toString (4 : Nat) = "d4" := rfl
    have e5 : "d" ++ toString (5 : Nat) = "d5" := rfl
    cases hp : r.packet_loss with
    | none =>
      simp [_SpeedTestResult.to_ambient, _SpeedTestResult._to_ambient_data, hp,
        _TIMEZONE_OFFSET, List.lookup, e1, e2, e3, e4, e5]
    | some p =>
      simp [_SpeedTestResult.to_ambient, _SpeedTestResult._to_ambient_data, hp,
        _TIMEZONE_OFFSET, List.lookup, e1, e2, e3, e4, e5]
  · exact ambient_uploads_eq

/-- C9: end-to-end over the discovery pipeline.  With the interface
listing flattening to an `"inet"` entry `203.0.113.5` and an `"inet6"`
entry `2001:db8:1::5`, a v4 route text containing `203.0.113.5` as a
word-boundary-delimited token and a v6 route text not containing
`2001:db8:1::5` at all, the produced routable addresses are exactly
`[203.0.113.5]`. -/
theorem pipeline_end_to_end (ifs : List Interface) (routeV4 routeV6 : String)
    (hif : (ifs.map fun i => i.addr_info.getD []).flatten =
      [AddrInfo.mk (some "inet") (some "203.0.113.5"),
       AddrInfo.mk (some "inet6") (some "2001:db8:1::5")])
    (h4 : litTokenSearch "203.0.113.5".data routeV4.data = true)
    (h6 : containsSub "2001:db8:1::5".data routeV6.data = false) :
    (_get_ip_addresses ifs routeV4 routeV6).1 = [some "203.0.113.5"] := by
  have hm4 : reSearchWord "203.0.113.5".data routeV4.data = true :=
    litTokenSearch_imp _ _ h4
  have hm6 : reSearchWord "2001:db8:1::5".data routeV6.data = false :=
    reSearch_dotless_not _ _ (by decide) h6
  have hsep : _separate_family
      [AddrInfo.mk (some "inet") (some "203.0.113.5"),
       AddrInfo.mk (some "inet6") (some "2001:db8:1::5")] =
      ([some "203.0.113.5"], [some "2001:db8:1::5"]) := by decide
  unfold _get_ip_addresses
  rw [hif]
  simp [hsep, _sieve_addresses, _sieve_addresses_family, render, hm4, hm6]

/-- Witness for C9 at a concrete interface listing and route outputs. -/
theorem pipeline_end_to_end_witness :
    (([Interface.mk (some [AddrInfo.mk (some "inet") (some "203.0.113.5"),
        AddrInfo.mk (some "inet6") (some "2001:db8:1::5")])].map
          fun i => i.addr_info.getD []).flatten =
      [AddrInfo.mk (some "inet") (some "203.0.113.5"),
       AddrInfo.mk (some "inet6") (some "2001:db8:1::5")]) ∧
    litTokenSearch "203.0.113.5".data "203.0.113.5 via 192.0.2.1 dev eth0".data =
      true ∧
    containsSub "2001:db8:1::5".data "fe80::1 dev eth0".data = false ∧
    (_get_ip_addresses
        [Interface.mk (some [AddrInfo.mk (some "inet") (some "203.0.113.5"),
          AddrInfo.mk (some "inet6") (some "2001:db8:1::5")])]
        "203.0.113.5 via 192.0.2.1 dev eth0" "fe80::1 dev eth0").1 =
      [some "203.0.113.5"] :=
  ⟨by decide, by decide, by decide,
    pipeline_end_to_end _ _ _ (by decide) (by decide) (by decide)⟩

end SpeedtestAmbient
